import Mathlib

/-!
Verification of the posterior-query and differential-expression engine of
`scvi` (`src/scvi/core/models/__init__.py`: `VAEMixin`, `RNASeqMixin`,
`BaseModelClass`).

The embedding translates the query operations into pure Lean functions.
Tensors are nested lists (`Mat`, `Ten3`); the external neural decode
(`model.get_sample_scale`, `model.get_sample_rate`, `model.inference`) and the
count-distribution samplers are modelled as given functions on index space,
following the spec's external-interface contract.  The Posterior Iterator
(class not in the excerpt; built by `_make_posterior` with `shuffle=False` and
`.sequential()`) is modelled from the spec as order-preserving chunking of the
requested row indices.
-/

namespace Scvi

/-- The model's declared `gene_likelihood` family. -/
inductive GeneLikelihood where
  | zinb
  | nb
  | poisson
  | normal
deriving DecidableEq, Repr

/-- A matrix as a list of rows (axis 0 outermost). -/
abbrev Mat (α : Type) := List (List α)

/-- A rank-3 tensor as nested lists (axis 0 outermost). -/
abbrev Ten3 (α : Type) := List (List (List α))

/-- Fuel-indexed worker for `chunks`; the fuel is an upper bound on the list
length, so the recursion is structural. -/
def chunksAux (bs : Nat) : Nat → List α → List (List α)
  | 0, _ => []
  | _ + 1, [] => []
  | fuel + 1, x :: xs => ((x :: xs).take bs) :: chunksAux bs fuel ((x :: xs).drop bs)

/-- Modelled from the spec: the Posterior Iterator over a row subset
(`_make_posterior` builds it with `shuffle=False` and `.sequential()`; the
iterator class itself is outside the excerpt).  Spec §5: minibatch `i`'s rows
are a contiguous, order-preserving slice of the requested `rows` list, of size
`batch_size`. -/
def chunks (bs : Nat) (xs : List α) : List (List α) :=
  chunksAux bs xs.length xs

/-- Boolean-mask indexing `row[mask]` (numpy/pandas semantics): keep the
entries whose mask position is `True`, in their original order. -/
def maskColumns (row : List α) (mask : List Bool) : List α :=
  ((row.zip mask).filter (fun p => p.2)).map (fun p => p.1)

/-- `gene_mask = [True if gene in gene_list else False for gene in all_genes]`
(source lines 289-291 and 438-440). -/
def geneMask (allGenes : List String) (geneList : List String) : List Bool :=
  allGenes.map (fun g => geneList.contains g)

/-- `gene_mask` resolution: `slice(None)` when `gene_list is None`. -/
def geneMaskOpt (allGenes : List String) (geneList : Option (List String)) :
    Option (List Bool) :=
  geneList.map (fun gl => geneMask allGenes gl)

/-- Apply an optional boolean mask along a list axis (`[..., gene_mask]`);
`none` is `slice(None)`. -/
def applyMask (mask : Option (List Bool)) (row : List α) : List α :=
  match mask with
  | none => row
  | some m => maskColumns row m

/-- `t.permute([1, 2, 0])` / `np.transpose(t, (1, 2, 0))` on a rank-3 tensor of
shape `(S, C, G)`: the result has shape `(C, G, S)` with
`out[c][g][s] = t[s][c][g]`. -/
def permute120 (t : Ten3 α) (dflt : α) : Ten3 α :=
  (List.range ((t.headD []).length)).map (fun c =>
    (List.range (((t.headD []).headD []).length)).map (fun g =>
      (List.range t.length).map (fun s =>
        ((t.getD s []).getD c []).getD g dflt)))

/-- The registered dataset (`adata` after `setup_anndata`), reduced to the
accessors this core reads (spec §6): gene names in stable order, cell names,
the raw count matrix, the number of cells, and the per-cell grouping column
used by `differential_expression`. -/
structure AnnDataLite where
  n_obs : Nat
  var_names : List String
  obs_names : Nat → String
  /-- Raw counts `X[c][g]`. -/
  X : Nat → Nat → ℚ
  /-- `adata.obs[groupby][c]` (the categorical column `differential_expression`
  compares on). -/
  obs_col : Nat → String

/-- The trained model, as borrowed read-only by the query engine.  The neural
decode and the distribution samplers are external (spec §1, §6: "a trained
model object offering a deterministic forward inference operation", "a
sampling operation producing non-negative integer draws"), so they are fields:
functions of the posterior-sample index `s`, the dataset row `c`, and the gene
index `g`. -/
structure VAEModel where
  /-- Training-completion flag (`self.is_trained_`). -/
  is_trained_ : Bool
  /-- Declared likelihood family (`self.model.gene_likelihood`). -/
  gene_likelihood : GeneLikelihood
  /-- `model.get_sample_scale(x, ..., transform_batch=tb)[.., c, g]` at
  posterior sample `s`: decoded proportion of library. -/
  get_sample_scale : Option Nat → Nat → Nat → Nat → ℚ
  /-- `model.get_sample_rate(x, ..., transform_batch=tb)[.., c, g]` at
  posterior sample `s`: decoded rate under the latent library size. -/
  get_sample_rate : Option Nat → Nat → Nat → Nat → ℚ
  /-- `model.inference(...)["px_scale"]` at `(s, c, g)` (observed batch: the
  source calls `inference` without a batch transform). -/
  px_scale : Nat → Nat → Nat → ℚ
  /-- `model.inference(...)["px_r"]` per `(c, g)`; gene-only dispersion is the
  cell-constant case, matching the `ones_like(x) * px_r` broadcast. -/
  px_r : Nat → Nat → ℚ
  /-- `model.inference(...)["px_r"]` as the gene-only vector that
  `get_likelihood_parameters` tiles with `np.repeat` to per-cell shape. -/
  px_r_vec : Nat → ℚ
  /-- `model.inference(...)["px_rate"]` at `(s, c, g)`. -/
  px_rate : Nat → Nat → Nat → ℚ
  /-- `model.inference(...)["px_dropout"]` at `(s, c, g)`. -/
  px_dropout : Nat → Nat → Nat → ℚ
  /-- `dist.sample()` of the count distribution assembled from the inference
  outputs for the given likelihood, at `(s, c, g)`: a non-negative integer
  draw (spec §4.1). -/
  dist_sample : GeneLikelihood → Nat → Nat → Nat → Nat
  /-- `torch.distributions.Gamma(con, rate).sample()` at rng position
  `(s, c, g)`. -/
  gamma_sample : ℚ → ℚ → Nat → Nat → Nat → ℚ
  /-- `model.sample_from_posterior_l(x, give_mean)[c]`. -/
  sample_from_posterior_l : Bool → Nat → ℚ

/-- `if indices is None: indices = np.arange(adata.n_obs)`. -/
def resolveIndices (n_obs : Nat) : Option (List Nat) → List Nat
  | none => List.range n_obs
  | some l => l

/-- The `library_size` argument: `"latent"` or a numeric scale. -/
inductive LibrarySize where
  | latent
  | const (l : ℚ)

/-- `model_fn` selection of `get_normalized_expression` (source lines
301-306): `get_sample_rate` for `library_size == "latent"`, else
`get_sample_scale`. -/
def gneModelFn (m : VAEModel) : LibrarySize → Option Nat → Nat → Nat → Nat → ℚ
  | .latent => m.get_sample_rate
  | .const _ => m.get_sample_scale

/-- `scaling` selection of `get_normalized_expression` (source lines
301-306): `1` for the latent path, else the requested library size. -/
def gneScaling : LibrarySize → ℚ
  | .latent => 1
  | .const l => l

/-- `np.concatenate(ts, axis=-2)` on rank-3 `(S, cells_b, G)` pieces: slice `s`
of the result is the concatenation of the `s` slices. -/
def concatAxisCells (S : Nat) (ts : List (Ten3 ℚ)) : Ten3 ℚ :=
  (List.range S).map (fun s => (ts.map (fun t => t.getD s [])).flatten)

/-- `arr.mean(0)` on a rank-3 array (dimensions read off the leading slice). -/
def meanAxis0 (t : Ten3 ℚ) : Mat ℚ :=
  (List.range ((t.headD []).length)).map (fun c =>
    (List.range (((t.headD []).headD []).length)).map (fun g =>
      (t.map (fun sm => (sm.getD c []).getD g 0)).sum / t.length))

/-- The value returned by `get_normalized_expression`: the numeric array (rank
2, or rank 3 when `n_samples > 1` and `return_mean=False`), whether it is
wrapped as a labeled DataFrame, and the labels the DataFrame would carry
(`index=adata.obs_names[indices]`, `columns=adata.var_names[gene_mask]`). -/
structure GNEOut where
  arr : Sum (Mat ℚ) (Ten3 ℚ)
  asDataFrame : Bool
  rowNames : List String
  colNames : List String

/-- Embedding of `RNASeqMixin.get_normalized_expression` (source lines
282-344).  `transform_batch` is forwarded to the decode; `gene_list` becomes a
boolean mask over the dataset's gene ordering; `library_size="latent"` selects
`get_sample_rate` with scaling 1, a numeric `library_size` selects
`get_sample_scale` with that scaling; minibatch outputs are masked, scaled,
and concatenated along the cell axis (axis `-2` when a leading sample axis is
present, else axis 0); with `n_samples > 1` and `return_mean=True` the sample
axis is averaged away; `return_numpy` is forced to `True` when `n_samples > 1`
and `return_mean=False`.  At `n_samples = 1` the decode's single posterior
draw is the one indexed `s = 0`. -/
def get_normalized_expression (m : VAEModel) (adata : AnnDataLite)
    (indices : Option (List Nat)) (transform_batch : Option Nat)
    (gene_list : Option (List String)) (library_size : LibrarySize)
    (n_samples : Nat) (batch_size : Nat) (return_mean : Bool)
    (return_numpy : Option Bool) : GNEOut :=
  let gene_mask := geneMaskOpt adata.var_names gene_list
  let return_numpy' :=
    if n_samples > 1 ∧ return_mean = false then some true else return_numpy
  let indices' := resolveIndices adata.n_obs indices
  let model_fn := gneModelFn m library_size
  let scaling := gneScaling library_size
  let G := adata.var_names.length
  let batches := chunks batch_size indices'
  let arr : Sum (Mat ℚ) (Ten3 ℚ) :=
    if n_samples > 1 then
      let exprs := concatAxisCells n_samples (batches.map (fun mb =>
        (List.range n_samples).map (fun s => mb.map (fun c =>
          (applyMask gene_mask ((List.range G).map (fun g =>
            model_fn transform_batch s c g))).map (fun v => v * scaling)))))
      if return_mean then Sum.inl (meanAxis0 exprs) else Sum.inr exprs
    else
      Sum.inl ((batches.map (fun mb => mb.map (fun c =>
        (applyMask gene_mask ((List.range G).map (fun g =>
          model_fn transform_batch 0 c g))).map (fun v => v * scaling)))).flatten)
  { arr := arr
    asDataFrame := return_numpy' ≠ some true
    rowNames := indices'.map adata.obs_names
    colNames := applyMask gene_mask adata.var_names }

/-- Embedding of `RNASeqMixin.posterior_predictive_sample` (source lines
394-485).  The unsupported-likelihood guard
(`if self.model.gene_likelihood not in ["zinb", "nb", "poisson"]`) is the
first statement, before the posterior is built; per minibatch the count
distribution matching the declared likelihood is sampled, with the sample axis
moved last (`permute([1, 2, 0])`) when `n_samples > 1` and absent when
`n_samples == 1`; the gene mask applies to axis 1; minibatch results are
concatenated along axis 0. -/
def posterior_predictive_sample (m : VAEModel) (adata : AnnDataLite)
    (indices : Option (List Nat)) (n_samples : Nat)
    (gene_list : Option (List String)) (batch_size : Nat) :
    Except String (Sum (Mat Nat) (Ten3 Nat)) :=
  if m.gene_likelihood ∉ [GeneLikelihood.zinb, GeneLikelihood.nb, GeneLikelihood.poisson] then
    Except.error "Invalid gene_likelihood."
  else
    let indices' := resolveIndices adata.n_obs indices
    let gene_mask := geneMaskOpt adata.var_names gene_list
    let G := adata.var_names.length
    let batches := chunks batch_size indices'
    if n_samples > 1 then
      Except.ok (Sum.inr ((batches.map (fun mb =>
        let sampled : Ten3 Nat := (List.range n_samples).map (fun s =>
          mb.map (fun c => (List.range G).map (fun g =>
            m.dist_sample m.gene_likelihood s c g)))
        (permute120 sampled 0).map (fun cellRows =>
          applyMask gene_mask cellRows))).flatten))
    else
      Except.ok (Sum.inl ((batches.map (fun mb =>
        mb.map (fun c => applyMask gene_mask ((List.range G).map (fun g =>
          m.dist_sample m.gene_likelihood 0 c g))))).flatten))

/-- The Gamma parameters `_get_denoised_samples` passes to
`torch.distributions.Gamma` (source lines 542-544): with
`p = rate / (rate + px_dispersion)`, concentration `r = px_dispersion` and
rate `(1 - p) / p`. -/
def denoisedGammaParams (rate disp : ℚ) : ℚ × ℚ :=
  let p := rate / (rate + disp)
  (disp, (1 - p) / p)

/-- Embedding of `RNASeqMixin._get_denoised_samples` (source lines 487-554).
Per minibatch: `rate = rna_size_factor * px_scale`, Gamma samples with the
parameters of `denoisedGammaParams`, the per-batch `(S, cells_b, G)` block
transposed to `(cells_b, G, S)` and blocks concatenated along axis 0.
The `transform_batch` argument is accepted but — exactly as in the source,
which calls `self.model.inference` without it — never influences the decode. -/
def get_denoised_samples (m : VAEModel) (adata : AnnDataLite)
    (indices : Option (List Nat)) (n_samples : Nat) (batch_size : Nat)
    (rna_size_factor : ℚ) (transform_batch : Option Nat) : Ten3 ℚ :=
  let indices' := resolveIndices adata.n_obs indices
  let G := adata.var_names.length
  let batches := chunks batch_size indices'
  ((batches.map (fun mb =>
    let data : Ten3 ℚ := (List.range n_samples).map (fun s =>
      mb.map (fun c => (List.range G).map (fun g =>
        let rate := rna_size_factor * m.px_scale s c g
        let pr := denoisedGammaParams rate (m.px_r c g)
        m.gamma_sample pr.1 pr.2 s c g)))
    permute120 data 0))).flatten

/-- The `transform_batch` argument of `get_feature_correlation_matrix`:
`None | int | list of int`. -/
inductive TransformBatchArg where
  | noArg
  | single (b : Nat)
  | listArg (bs : List Nat)

/-- `if (transform_batch is None) or (isinstance(transform_batch, int)):
transform_batch = [transform_batch]` (source lines 601-602). -/
def resolveTransformBatch : TransformBatchArg → List (Option Nat)
  | .noArg => [none]
  | .single b => [some b]
  | .listArg bs => bs.map some

/-- The sample-axis flattening of `get_feature_correlation_matrix` (source
lines 613-619): stack the `n_samples` cell-axis slices of the `(cells, G, S)`
denoised tensor into a `(cells * n_samples, G)` matrix, sample-major. -/
def flattenSamples (dd : Ten3 ℚ) (n_samples : Nat) : Mat ℚ :=
  ((List.range n_samples).map (fun i =>
    dd.map (fun cellRow => cellRow.map (fun geneRow => geneRow.getD i 0)))).flatten

/-- Element-wise `np.mean(np.stack(mats), axis=0)` (dimensions read off the
first matrix). -/
def matMean (mats : List (Mat ℚ)) : Mat ℚ :=
  (List.range ((mats.headD []).length)).map (fun r =>
    (List.range (((mats.headD []).headD []).length)).map (fun c =>
      (mats.map (fun M => (M.getD r []).getD c 0)).sum / mats.length))

/-- Embedding of `RNASeqMixin.get_feature_correlation_matrix` (source lines
556-631).  The Pearson and Spearman estimators (`np.corrcoef`,
`scipy.stats.spearmanr`) are external and passed as functions; per requested
batch the denoised samples are flattened and correlated, an unknown
`correlation_type` is a validation error, and the per-batch matrices are
averaged element-wise. -/
def get_feature_correlation_matrix (m : VAEModel) (adata : AnnDataLite)
    (indices : Option (List Nat)) (n_samples : Nat) (batch_size : Nat)
    (rna_size_factor : ℚ) (transform_batch : TransformBatchArg)
    (correlation_type : String) (corrPearson corrSpearman : Mat ℚ → Mat ℚ) :
    Except String (Mat ℚ) := do
  let tbs := resolveTransformBatch transform_batch
  let corr_mats ← tbs.mapM (fun b => do
    let dd := get_denoised_samples m adata indices n_samples batch_size
      rna_size_factor b
    let flattened := flattenSamples dd n_samples
    if correlation_type = "pearson" then
      pure (corrPearson flattened)
    else if correlation_type = "spearman" then
      pure (corrSpearman flattened)
    else
      Except.error "Unknown correlation type. Choose one of 'spearman', 'pearson'.")
  pure (matMean corr_mats)

/-- Embedding of `RNASeqMixin.get_likelihood_parameters` (source lines
633-684), at the default `n_samples=1` (where the source's `give_mean`
averaging and leading sample axis do not arise).  Per minibatch the decoded
`px_rate` and `px_dropout` are collected; the gene-only `px_r` vector is tiled
to one copy per cell (`np.repeat(..., n_batch, axis=0)`); the returned dict
always holds `"mean"`, adds `"dropout"` and `"dispersions"` for `zinb`, and
adds `"dispersions"` for `nb`.  No guard or error path exists in the source. -/
def get_likelihood_parameters (m : VAEModel) (adata : AnnDataLite)
    (indices : Option (List Nat)) (batch_size : Nat) :
    List (String × Mat ℚ) :=
  let indices' := resolveIndices adata.n_obs indices
  let G := adata.var_names.length
  let batches := chunks batch_size indices'
  let means := (batches.map (fun mb => mb.map (fun c =>
    (List.range G).map (fun g => m.px_rate 0 c g)))).flatten
  let dropout := (batches.map (fun mb => mb.map (fun c =>
    (List.range G).map (fun g => m.px_dropout 0 c g)))).flatten
  let dispersions := (batches.map (fun mb => mb.map (fun _ =>
    (List.range G).map (fun g => m.px_r_vec g)))).flatten
  [("mean", means)]
    ++ (if m.gene_likelihood = GeneLikelihood.zinb then
          [("dropout", dropout), ("dispersions", dispersions)] else [])
    ++ (if m.gene_likelihood = GeneLikelihood.nb then
          [("dispersions", dispersions)] else [])

/-- Embedding of `RNASeqMixin.get_latent_library_size` (source lines 686-720):
an untrained model is rejected first (`raise RuntimeError("Please train the
model first.")`); otherwise the per-cell latent library sizes are collected in
posterior order and concatenated. -/
def get_latent_library_size (m : VAEModel) (adata : AnnDataLite)
    (indices : Option (List Nat)) (give_mean : Bool) (batch_size : Nat) :
    Except String (List ℚ) :=
  if m.is_trained_ = false then
    Except.error "Please train the model first."
  else
    let indices' := resolveIndices adata.n_obs indices
    let batches := chunks batch_size indices'
    Except.ok ((batches.map (fun mb =>
      mb.map (fun c => m.sample_from_posterior_l give_mean c))).flatten)

/-- The cell indices a boolean mask selects, in order. -/
def maskIndices (mask : List Bool) : List Nat :=
  maskColumns (List.range mask.length) mask

/-- Modelled from the spec: `scrna_raw_counts_properties` (imported from
`scvi.models._utils`, not in the excerpt).  Spec §4.5: "mean raw count ...
computed directly from the raw count matrix ..., restricted to each group's
cell indices". -/
def rawMean (X : Nat → Nat → ℚ) (cells : List Nat) (g : Nat) : ℚ :=
  (cells.map (fun c => X c g)).sum / cells.length

/-- Modelled from the spec: the per-group proportion of cells with a non-zero
raw count for gene `g` (`scrna_raw_counts_properties`, spec §4.5). -/
def nonZerosProportion (X : Nat → Nat → ℚ) (cells : List Nat) (g : Nat) : ℚ :=
  ((cells.filter (fun c => X c g ≠ 0)).length : ℚ) / cells.length

/-- Per-cell library size: total raw count mass of row `c` (spec glossary). -/
def libSize (X : Nat → Nat → ℚ) (G : Nat) (c : Nat) : ℚ :=
  ((List.range G).map (fun g => X c g)).sum

/-- Modelled from the spec: the per-group library-size-normalized mean raw
count for gene `g` (`scrna_raw_counts_properties`, spec §4.5). -/
def rawNormalizedMean (X : Nat → Nat → ℚ) (G : Nat) (cells : List Nat) (g : Nat) : ℚ :=
  (cells.map (fun c => X c g / libSize X G c)).sum / cells.length

/-- One row of the `differential_expression` result table.  `bayes_factor` and
`proba_de` are the mode statistics delivered by
`DifferentialComputation.get_bayes_factors` (external, abstracted as per-gene
inputs); the six raw-count descriptive columns are present exactly when
`all_stats=True`. -/
structure DERow where
  gene : String
  bayes_factor : ℚ
  proba_de : ℚ
  raw_mean1 : Option ℚ
  raw_mean2 : Option ℚ
  non_zeros_proportion1 : Option ℚ
  non_zeros_proportion2 : Option ℚ
  raw_normalized_mean1 : Option ℚ
  raw_normalized_mean2 : Option ℚ

/-- `cell_idx1 = adata.obs[groupby] == group1` (source line 357): the boolean
mask of group 1. -/
def deCellIdx1 (adata : AnnDataLite) (group1 : String) : List Bool :=
  (List.range adata.n_obs).map (fun c => adata.obs_col c == group1)

/-- `cell_idx2`: complement of `cell_idx1` when `group2 is None`, else
`adata.obs[groupby] == group2` (source lines 358-361). -/
def deCellIdx2 (adata : AnnDataLite) (group1 : String) (group2 : Option String) :
    List Bool :=
  match group2 with
  | none => (deCellIdx1 adata group1).map (fun b => !b)
  | some g2 => (List.range adata.n_obs).map (fun c => adata.obs_col c == g2)

/-- The unsorted per-gene statistic table: the `get_bayes_factors` output
(abstracted as per-gene `bf`, `pde`) merged with the six raw-count columns of
`scrna_raw_counts_properties` when `all_stats is True` (source lines
365-389), indexed by the dataset's gene names. -/
def deRows (adata : AnnDataLite) (bf pde : Nat → ℚ) (group1 : String)
    (group2 : Option String) (all_stats : Bool) : List DERow :=
  let cells1 := maskIndices (deCellIdx1 adata group1)
  let cells2 := maskIndices (deCellIdx2 adata group1 group2)
  let G := adata.var_names.length
  (List.range G).map (fun g =>
    { gene := adata.var_names.getD g ""
      bayes_factor := bf g
      proba_de := pde g
      raw_mean1 := if all_stats then some (rawMean adata.X cells1 g) else none
      raw_mean2 := if all_stats then some (rawMean adata.X cells2 g) else none
      non_zeros_proportion1 :=
        if all_stats then some (nonZerosProportion adata.X cells1 g) else none
      non_zeros_proportion2 :=
        if all_stats then some (nonZerosProportion adata.X cells2 g) else none
      raw_normalized_mean1 :=
        if all_stats then some (rawNormalizedMean adata.X G cells1 g) else none
      raw_normalized_mean2 :=
        if all_stats then some (rawNormalizedMean adata.X G cells2 g) else none })

/-- `sort_key = "proba_de" if mode == "change" else "bayes_factor"` (source
line 390). -/
def sortKey (mode : String) : DERow → ℚ :=
  if mode == "change" then DERow.proba_de else DERow.bayes_factor

/-- Embedding of `RNASeqMixin.differential_expression` (source lines 346-392):
the per-gene table `deRows` sorted descending by the mode's primary statistic
(`res.sort_values(by=sort_key, ascending=False)`, modelled with
`List.insertionSort` on the reversed order). -/
def differential_expression (adata : AnnDataLite) (bf pde : Nat → ℚ)
    (group1 : String) (group2 : Option String) (mode : String)
    (all_stats : Bool) : List DERow :=
  List.insertionSort (fun a b => sortKey mode b ≤ sortKey mode a)
    (deRows adata bf pde group1 group2 all_stats)

/-- The shared minibatch loop of every query operation (`for tensors in post:`
under `@torch.no_grad()`): the model state is threaded through each step
read-only — `inference` is evaluated against the current state and the state
is passed on unchanged, since the source performs no assignment to any model
parameter inside the loop. -/
def posteriorLoop {σ : Type} (st : σ) (infer : σ → Nat → List ℚ)
    (batches : List (List Nat)) : Mat ℚ × σ :=
  batches.foldl (fun acc mb => (acc.1 ++ mb.map (infer acc.2), acc.2)) ([], st)

/-- The decoded, masked, scaled expression row of one cell (`c` a dataset row
index, `s` a posterior-sample index), as `get_normalized_expression` computes
it inside the minibatch loop. -/
def gneCellRow (m : VAEModel) (adata : AnnDataLite) (tb : Option Nat)
    (gl : Option (List String)) (ls : LibrarySize) (s c : Nat) : List ℚ :=
  (applyMask (geneMaskOpt adata.var_names gl)
    ((List.range adata.var_names.length).map (fun g =>
      gneModelFn m ls tb s c g))).map (fun v => v * gneScaling ls)

/-- The masked sampled counts of one cell at `n_samples = 1`: a gene-indexed
row of integer draws. -/
def ppsCellRow (m : VAEModel) (adata : AnnDataLite) (gl : Option (List String))
    (c : Nat) : List Nat :=
  applyMask (geneMaskOpt adata.var_names gl)
    ((List.range adata.var_names.length).map (fun g =>
      m.dist_sample m.gene_likelihood 0 c g))

/-- The masked `(genes, samples)` block of one cell when `n_samples > 1`
(sample axis last). -/
def ppsCellBlock (m : VAEModel) (adata : AnnDataLite) (gl : Option (List String))
    (nS c : Nat) : List (List Nat) :=
  applyMask (geneMaskOpt adata.var_names gl)
    ((List.range adata.var_names.length).map (fun g =>
      (List.range nS).map (fun s => m.dist_sample m.gene_likelihood s c g)))

/-- One denoised Gamma draw: `torch.distributions.Gamma` sampled at the
parameters `_get_denoised_samples` computes for `(s, c, g)`. -/
def denoisedEntry (m : VAEModel) (rna_size_factor : ℚ) (s c g : Nat) : ℚ :=
  m.gamma_sample
    (denoisedGammaParams (rna_size_factor * m.px_scale s c g) (m.px_r c g)).1
    (denoisedGammaParams (rna_size_factor * m.px_scale s c g) (m.px_r c g)).2
    s c g

/-- The numpy rank (`ndim`) of a `posterior_predictive_sample` result. -/
def resultRank : Sum (Mat Nat) (Ten3 Nat) → Nat
  | Sum.inl _ => 2
  | Sum.inr _ => 3

/-- The rank of a fallible sampling result (`none` when an error was raised). -/
def exceptRank : Except String (Sum (Mat Nat) (Ten3 Nat)) → Option Nat
  | Except.ok a => some (resultRank a)
  | Except.error _ => none

/-- All scalar entries of a `posterior_predictive_sample` result. -/
def flatCounts : Sum (Mat Nat) (Ten3 Nat) → List Nat
  | Sum.inl a => a.flatten
  | Sum.inr t => (t.map List.flatten).flatten

/-- The number of genes a `gene_list` request selects: the length of the
masked gene-name sequence (the DataFrame's column count). -/
def nSelectedGenes (var_names : List String) (gl : Option (List String)) : Nat :=
  (applyMask (geneMaskOpt var_names gl) var_names).length

/-- A small concrete registered dataset (4 cells, 3 genes) used to evaluate
the embedded operations on explicit inputs. -/
def testAdata : AnnDataLite where
  n_obs := 4
  var_names := ["G1", "G2", "G3"]
  obs_names := fun c => "cell" ++ toString c
  X := fun c g => if c = 0 ∧ g = 0 then 0 else 2
  obs_col := fun c => if c < 2 then "A" else "B"

/-- A small concrete trained model with simple closed-form decode outputs. -/
def testModel : VAEModel where
  is_trained_ := true
  gene_likelihood := GeneLikelihood.nb
  get_sample_scale := fun _ _ _ _ => 3
  get_sample_rate := fun _ _ _ _ => 5
  px_scale := fun _ _ _ => 4
  px_r := fun _ _ => 2
  px_r_vec := fun _ => 2
  px_rate := fun _ _ _ => 7
  px_dropout := fun _ _ _ => 9
  dist_sample := fun _ s c g => s + c + g
  gamma_sample := fun con rate _ _ _ => con + rate
  sample_from_posterior_l := fun _ _ => 6

/-- `testModel` before `train()` completed (`is_trained_ = False`). -/
def untrainedModel : VAEModel :=
  { testModel with is_trained_ := false }

/-- `Except.ok`-test for a sampling result. -/
def exceptIsOk : Except String (Sum (Mat Nat) (Ten3 Nat)) → Bool
  | Except.ok _ => true
  | Except.error _ => false

theorem chunksAux_join (bs : Nat) (hbs : 0 < bs) :
    ∀ (fuel : Nat) (xs : List α), xs.length ≤ fuel → (chunksAux bs fuel xs).flatten = xs := by
  intro fuel
  induction fuel with
  | zero =>
    intro xs hx
    have : xs = [] := List.eq_nil_of_length_eq_zero (Nat.le_zero.mp hx)
    simp [this, chunksAux]
  | succ n ih =>
    intro xs hx
    match xs with
    | [] => simp [chunksAux]
    | x :: xs =>
      have hlen : ((x :: xs).drop bs).length ≤ n := by
        simp only [List.length_drop, List.length_cons] at *
        omega
      simp [chunksAux, ih _ hlen]

theorem chunks_join (bs : Nat) (hbs : 0 < bs) (xs : List α) :
    (chunks bs xs).flatten = xs :=
  chunksAux_join bs hbs xs.length xs le_rfl

/-- Concatenating per-minibatch row-wise outputs recovers the row-wise map over
the requested rows:  the iterator-order contract makes minibatched
computation transparent. -/
theorem chunks_map_join (bs : Nat) (hbs : 0 < bs) (xs : List α) (f : α → β) :
    ((chunks bs xs).map (fun mb => mb.map f)).flatten = xs.map f := by
  have h := chunks_join bs hbs xs
  calc ((chunks bs xs).map (fun mb => mb.map f)).flatten
      = ((chunks bs xs).flatten).map f := by
        rw [List.map_flatten]
    _ = xs.map f := by rw [h]

theorem maskColumns_self_map (p : String → Bool) (allGenes : List String) :
    maskColumns allGenes (allGenes.map p) = allGenes.filter p := by
  induction allGenes with
  | nil => rfl
  | cons g gs ih =>
    by_cases hg : p g <;> simp [maskColumns, List.filter, hg] at ih ⊢ <;> exact ih

/-- The masked columns of the dataset's gene names are its genes that occur in
`gene_list`, kept in the dataset's order. -/
theorem maskColumns_geneMask (allGenes geneList : List String) :
    maskColumns allGenes (geneMask allGenes geneList)
      = allGenes.filter (fun g => geneList.contains g) :=
  maskColumns_self_map _ allGenes

theorem mem_maskColumns {a : α} {row : List α} {mask : List Bool}
    (h : a ∈ maskColumns row mask) : a ∈ row := by
  simp only [maskColumns, List.mem_map, List.mem_filter] at h
  obtain ⟨p, ⟨hp, _⟩, rfl⟩ := h
  exact (List.of_mem_zip hp).1

theorem length_maskColumns {row : List α} {mask : List Bool}
    (h : row.length = mask.length) :
    (maskColumns row mask).length = (mask.filter (fun b => b)).length := by
  induction mask generalizing row with
  | nil => simp [maskColumns]
  | cons b bs ih =>
    match row with
    | [] => simp at h
    | x :: xs =>
      have hx : xs.length = bs.length := by simpa using h
      by_cases hb : b = true <;>
        simp [maskColumns, List.filter, hb] at ih ⊢ <;>
        simpa [maskColumns] using ih hx

theorem getD_map_range (h : Nat → α) (n i : Nat) (hi : i < n) (d : α) :
    ((List.range n).map h).getD i d = h i := by
  rw [List.getD_eq_getElem?_getD, List.getElem?_map, List.getElem?_range hi]
  rfl

theorem getD_map (f : α → β) (l : List α) (i : Nat) (hi : i < l.length) (d : β) :
    (l.map f).getD i d = f l[i] := by
  rw [List.getD_eq_getElem?_getD, List.getElem?_map, List.getElem?_eq_getElem hi]
  rfl

/-- Permuting the comprehension-built `(S, C, G)` tensor of samples gives the
cell-major `(C, G, S)` tensor, preserving the cell order of `mb`. -/
theorem permute120_comp (f : Nat → Nat → Nat → α) (S G : Nat) (hS : 0 < S)
    (mb : List Nat) (d : α) :
    permute120 ((List.range S).map (fun s => mb.map (fun c =>
        (List.range G).map (fun g => f s c g)))) d
      = mb.map (fun c => (List.range G).map (fun g =>
          (List.range S).map (fun s => f s c g))) := by
  match mb with
  | [] =>
    obtain ⟨S', rfl⟩ : ∃ S', S = S' + 1 := ⟨S - 1, by omega⟩
    simp [permute120, List.range_succ_eq_map]
  | c0 :: mbtl =>
    have hSr : ∃ S', S = S' + 1 := ⟨S - 1, by omega⟩
    obtain ⟨S', rfl⟩ := hSr
    have hhead1 : (((List.range (S' + 1)).map (fun s => (c0 :: mbtl).map (fun c =>
        (List.range G).map (fun g => f s c g)))).headD [])
        = (c0 :: mbtl).map (fun c => (List.range G).map (fun g => f 0 c g)) := by
      simp [List.range_succ_eq_map]
    rw [permute120]
    rw [hhead1]
    have hlen1 : ((c0 :: mbtl).map (fun c =>
        (List.range G).map (fun g => f 0 c g))).length = (c0 :: mbtl).length := by
      simp
    rw [hlen1]
    have hhead2 : (((c0 :: mbtl).map (fun c =>
        (List.range G).map (fun g => f 0 c g))).headD []) =
        (List.range G).map (fun g => f 0 c0 g) := by simp
    rw [hhead2]
    have hlen2 : ((List.range G).map (fun g => f 0 c0 g)).length = G := by simp
    rw [hlen2]
    have hlenS : ((List.range (S' + 1)).map (fun s => (c0 :: mbtl).map (fun c =>
        (List.range G).map (fun g => f s c g)))).length = S' + 1 := by simp
    rw [hlenS]
    apply List.ext_getElem
    · simp
    intro c hc1 hc2
    simp only [List.getElem_map, List.getElem_range, List.length_range] at hc1 ⊢
    apply List.ext_getElem
    · simp
    intro g hg1 hg2
    simp only [List.getElem_map, List.getElem_range, List.length_range] at hg1 ⊢
    apply List.ext_getElem
    · simp
    intro s hs1 hs2
    simp only [List.getElem_map, List.getElem_range, List.length_range] at hs1 ⊢
    have hc : c < (c0 :: mbtl).length := by
      simpa using hc1
    have hgG : g < G := by simpa using hg1
    have hsS : s < S' + 1 := by simpa using hs1
    rw [getD_map_range _ _ _ hsS, getD_map _ _ _ (by simpa using hc), getD_map_range _ _ _ hgG]

theorem gne_arr_one (m : VAEModel) (adata : AnnDataLite) (rows : List Nat)
    (tb : Option Nat) (gl : Option (List String)) (ls : LibrarySize)
    (bs : Nat) (hbs : 0 < bs) (rm : Bool) (rn : Option Bool) :
    (get_normalized_expression m adata (some rows) tb gl ls 1 bs rm rn).arr
      = Sum.inl (rows.map (gneCellRow m adata tb gl ls 0)) := by
  have h2 : (fun (c : Nat) => List.map (fun v => v * gneScaling ls)
      (applyMask (geneMaskOpt adata.var_names gl)
        (List.map (fun g => gneModelFn m ls tb 0 c g)
          (List.range adata.var_names.length)))) = gneCellRow m adata tb gl ls 0 := by
    funext c
    simp [gneCellRow]
  have h := chunks_map_join bs hbs rows (gneCellRow m adata tb gl ls 0)
  simp [get_normalized_expression, resolveIndices, h2, h]

theorem gne_rowNames (m : VAEModel) (adata : AnnDataLite) (rows : List Nat)
    (tb : Option Nat) (gl : Option (List String)) (ls : LibrarySize)
    (nS bs : Nat) (rm : Bool) (rn : Option Bool) :
    (get_normalized_expression m adata (some rows) tb gl ls nS bs rm rn).rowNames
      = rows.map adata.obs_names := rfl

theorem gne_colNames (m : VAEModel) (adata : AnnDataLite)
    (indices : Option (List Nat)) (tb : Option Nat) (gl : Option (List String))
    (ls : LibrarySize) (nS bs : Nat) (rm : Bool) (rn : Option Bool) :
    (get_normalized_expression m adata indices tb gl ls nS bs rm rn).colNames
      = applyMask (geneMaskOpt adata.var_names gl) adata.var_names := rfl

theorem concatAxisCells_chunks (S bs : Nat) (hbs : 0 < bs) (rows : List Nat)
    (f : Nat → Nat → List ℚ) :
    concatAxisCells S ((chunks bs rows).map (fun mb =>
        (List.range S).map (fun s => mb.map (fun c => f s c))))
      = (List.range S).map (fun s => rows.map (fun c => f s c)) := by
  unfold concatAxisCells
  apply List.map_congr_left
  intro s hs
  have hsS : s < S := List.mem_range.mp hs
  rw [List.map_map]
  have hpoint : ((fun t : Ten3 ℚ => t.getD s []) ∘ (fun mb : List Nat =>
      (List.range S).map (fun s' => mb.map (fun c => f s' c))))
      = fun mb : List Nat => mb.map (fun c => f s c) := by
    funext mb
    exact getD_map_range _ S s hsS []
  rw [hpoint]
  exact chunks_map_join bs hbs rows (fun c => f s c)

theorem gne_arr_many (m : VAEModel) (adata : AnnDataLite) (rows : List Nat)
    (tb : Option Nat) (gl : Option (List String)) (ls : LibrarySize)
    (nS bs : Nat) (hbs : 0 < bs) (hnS : 1 < nS) (rn : Option Bool) :
    (get_normalized_expression m adata (some rows) tb gl ls nS bs false rn).arr
      = Sum.inr ((List.range nS).map (fun s =>
          rows.map (gneCellRow m adata tb gl ls s))) := by
  have h2 : ∀ s : Nat, (fun (c : Nat) => List.map (fun v => v * gneScaling ls)
      (applyMask (geneMaskOpt adata.var_names gl)
        (List.map (fun g => gneModelFn m ls tb s c g)
          (List.range adata.var_names.length)))) = gneCellRow m adata tb gl ls s := by
    intro s
    funext c
    simp [gneCellRow]
  have h := concatAxisCells_chunks nS bs hbs rows (gneCellRow m adata tb gl ls)
  have hgt : nS > 1 := hnS
  simp [get_normalized_expression, resolveIndices, hgt, h2, h]

theorem glls_ok (m : VAEModel) (adata : AnnDataLite) (rows : List Nat)
    (give_mean : Bool) (bs : Nat) (ht : m.is_trained_ = true) (hbs : 0 < bs) :
    get_latent_library_size m adata (some rows) give_mean bs
      = Except.ok (rows.map (m.sample_from_posterior_l give_mean)) := by
  have h := chunks_map_join bs hbs rows (m.sample_from_posterior_l give_mean)
  simp [get_latent_library_size, resolveIndices, ht, h]

theorem pps_ok_one (m : VAEModel) (adata : AnnDataLite) (rows : List Nat)
    (gl : Option (List String)) (bs : Nat)
    (hlik : m.gene_likelihood ∈ [GeneLikelihood.zinb, GeneLikelihood.nb, GeneLikelihood.poisson])
    (hbs : 0 < bs) :
    posterior_predictive_sample m adata (some rows) 1 gl bs
      = Except.ok (Sum.inl (rows.map (ppsCellRow m adata gl))) := by
  have h2 : (fun (c : Nat) => applyMask (geneMaskOpt adata.var_names gl)
      (List.map (fun g => m.dist_sample m.gene_likelihood 0 c g)
        (List.range adata.var_names.length))) = ppsCellRow m adata gl := by
    funext c
    simp [ppsCellRow]
  have h := chunks_map_join bs hbs rows (ppsCellRow m adata gl)
  simp [posterior_predictive_sample, resolveIndices, hlik, h2, h]

theorem pps_ok_many (m : VAEModel) (adata : AnnDataLite) (rows : List Nat)
    (gl : Option (List String)) (nS bs : Nat)
    (hlik : m.gene_likelihood ∈ [GeneLikelihood.zinb, GeneLikelihood.nb, GeneLikelihood.poisson])
    (hbs : 0 < bs) (hnS : 1 < nS) :
    posterior_predictive_sample m adata (some rows) nS gl bs
      = Except.ok (Sum.inr (rows.map (ppsCellBlock m adata gl nS))) := by
  have hS : 0 < nS := by omega
  have hperm : ∀ mb : List Nat,
      permute120 ((List.range nS).map (fun s => mb.map (fun c =>
        (List.range adata.var_names.length).map (fun g =>
          m.dist_sample m.gene_likelihood s c g)))) 0
      = mb.map (fun c => (List.range adata.var_names.length).map (fun g =>
          (List.range nS).map (fun s => m.dist_sample m.gene_likelihood s c g))) :=
    fun mb => permute120_comp _ nS adata.var_names.length hS mb 0
  have h2 : (fun (c : Nat) => applyMask (geneMaskOpt adata.var_names gl)
      (List.map (fun g => List.map
          (fun s => m.dist_sample m.gene_likelihood s c g) (List.range nS))
        (List.range adata.var_names.length))) = ppsCellBlock m adata gl nS := by
    funext c
    simp [ppsCellBlock]
  have h := chunks_map_join bs hbs rows (ppsCellBlock m adata gl nS)
  have hgt : nS > 1 := hnS
  have h3 : ((fun cellRows => applyMask (geneMaskOpt adata.var_names gl) cellRows) ∘
      fun (c : Nat) => List.map (fun g => List.map
          (fun s => m.dist_sample m.gene_likelihood s c g) (List.range nS))
        (List.range adata.var_names.length)) = ppsCellBlock m adata gl nS := by
    funext c
    simp [ppsCellBlock]
  simp [posterior_predictive_sample, resolveIndices, hlik, hgt, hperm,
    List.map_map, h2, h]
  simp only [h3]
  exact h

theorem denoised_structural (m : VAEModel) (adata : AnnDataLite)
    (rows : List Nat) (nS bs : Nat) (rna_size_factor : ℚ)
    (tb : Option Nat) (hbs : 0 < bs) (hS : 0 < nS) :
    get_denoised_samples m adata (some rows) nS bs rna_size_factor tb
      = rows.map (fun c => (List.range adata.var_names.length).map (fun g =>
          (List.range nS).map (fun s => denoisedEntry m rna_size_factor s c g))) := by
  have hperm : ∀ mb : List Nat,
      permute120 ((List.range nS).map (fun s => mb.map (fun c =>
        (List.range adata.var_names.length).map (fun g =>
          denoisedEntry m rna_size_factor s c g)))) 0
      = mb.map (fun c => (List.range adata.var_names.length).map (fun g =>
          (List.range nS).map (fun s => denoisedEntry m rna_size_factor s c g))) :=
    fun mb => permute120_comp _ nS adata.var_names.length hS mb 0
  have h := chunks_map_join bs hbs rows (fun c =>
    (List.range adata.var_names.length).map (fun g =>
      (List.range nS).map (fun s => denoisedEntry m rna_size_factor s c g)))
  simp [get_denoised_samples, resolveIndices, denoisedEntry] at hperm h ⊢
  simp [hperm, h]

theorem length_maskColumns_congr {row1 : List α} {row2 : List β}
    (m : List Bool) (h : row1.length = row2.length) :
    (maskColumns row1 m).length = (maskColumns row2 m).length := by
  induction m generalizing row1 row2 with
  | nil => simp [maskColumns]
  | cons b bs ih =>
    match row1, row2 with
    | [], [] => rfl
    | x :: xs, y :: ys =>
      have hx : xs.length = ys.length := by simpa using h
      by_cases hb : b = true <;>
        simp [maskColumns, List.filter, hb] at ih ⊢ <;>
        simpa [maskColumns] using ih hx
    | [], y :: ys => simp at h
    | x :: xs, [] => simp at h

theorem length_applyMask_congr (mask : Option (List Bool)) {row1 : List α}
    {row2 : List β} (h : row1.length = row2.length) :
    (applyMask mask row1).length = (applyMask mask row2).length := by
  cases mask with
  | none => simpa [applyMask] using h
  | some mk => simpa [applyMask] using length_maskColumns_congr mk h

theorem length_ppsCellRow (m : VAEModel) (adata : AnnDataLite)
    (gl : Option (List String)) (c : Nat) :
    (ppsCellRow m adata gl c).length = nSelectedGenes adata.var_names gl := by
  unfold ppsCellRow nSelectedGenes
  exact length_applyMask_congr _ (by simp)

theorem length_ppsCellBlock (m : VAEModel) (adata : AnnDataLite)
    (gl : Option (List String)) (nS c : Nat) :
    (ppsCellBlock m adata gl nS c).length = nSelectedGenes adata.var_names gl := by
  unfold ppsCellBlock nSelectedGenes
  exact length_applyMask_congr _ (by simp)

theorem mem_applyMask {a : α} {row : List α} {mask : Option (List Bool)}
    (h : a ∈ applyMask mask row) : a ∈ row := by
  cases mask with
  | none => simpa [applyMask] using h
  | some mk => exact mem_maskColumns (by simpa [applyMask] using h)

theorem length_of_mem_ppsCellBlock (m : VAEModel) (adata : AnnDataLite)
    (gl : Option (List String)) (nS c : Nat) {gr : List Nat}
    (h : gr ∈ ppsCellBlock m adata gl nS c) : gr.length = nS := by
  have : gr ∈ (List.range adata.var_names.length).map (fun g =>
      (List.range nS).map (fun s => m.dist_sample m.gene_likelihood s c g)) :=
    mem_applyMask h
  obtain ⟨g, _, rfl⟩ := List.mem_map.mp this
  simp

/-- Helper for the determinism part of the frame property: folding the
minibatch loop from any accumulator appends the row-wise outputs computed
against the initial state, and returns that state untouched. -/
theorem posteriorLoop_foldl (σ : Type) (st : σ) (infer : σ → Nat → List ℚ) :
    ∀ (batches : List (List Nat)) (acc : Mat ℚ),
      batches.foldl (fun a mb => (a.1 ++ mb.map (infer a.2), a.2)) (acc, st)
        = (acc ++ (batches.flatten).map (infer st), st) := by
  intro batches
  induction batches with
  | nil => intro acc; simp
  | cons mb rest ih =>
    intro acc
    simp only [List.foldl_cons, ih, List.flatten_cons, List.map_append,
      List.append_assoc]

/-- C2 (counterexample): `get_normalized_expression(gene_list=["G3","G1"])` on
the dataset with genes `["G1","G2","G3"]` labels its columns `["G1","G3"]` —
the dataset's gene order — not the requested order `["G3","G1"]`: the gene
mask `[g in gene_list for g in all_genes]` cannot reorder columns. -/
theorem gene_list_order_not_respected :
    (get_normalized_expression testModel testAdata none none (some ["G3", "G1"])
        (LibrarySize.const 1) 1 128 true none).colNames = ["G1", "G3"]
    ∧ ["G1", "G3"] ≠ ["G3", "G1"] := by
  constructor
  · rfl
  · decide

/-- C2 (amended): `get_normalized_expression` returns as columns exactly the
dataset's genes that occur in `gene_list`, in the dataset's stable gene
ordering (so a `gene_list` listed in dataset order, as in the spec's
`["G1","G3"]` example, is returned verbatim). -/
theorem gene_list_selects_dataset_order (m : VAEModel) (adata : AnnDataLite)
    (indices : Option (List Nat)) (tb : Option Nat) (gl : List String)
    (ls : LibrarySize) (nS bs : Nat) (rm : Bool) (rn : Option Bool) :
    (get_normalized_expression m adata indices tb (some gl) ls nS bs rm rn).colNames
      = adata.var_names.filter (fun g => gl.contains g) := by
  rw [gne_colNames]
  simpa [applyMask, geneMaskOpt] using maskColumns_geneMask adata.var_names gl

/-- C3: the `transform_batch` argument of `_get_denoised_samples` never
reaches the decode (`model.inference` is called without it, source lines
529-531), so the denoised samples — and therefore each entry of
`get_feature_correlation_matrix`'s batch list — are computed under each
cell's observed batch, contradicting the documented "batch to condition on"
semantics: conditioning on any batch, or on none, gives identical results. -/
theorem transform_batch_ignored_in_denoising (m : VAEModel) (adata : AnnDataLite)
    (indices : Option (List Nat)) (nS bs : Nat) (sf : ℚ) (b b' : Option Nat)
    (b1 b2 b1' b2' : Nat) (ct : String) (cp cs : Mat ℚ → Mat ℚ) :
    get_denoised_samples m adata indices nS bs sf b
      = get_denoised_samples m adata indices nS bs sf b'
    ∧ get_feature_correlation_matrix m adata indices nS bs sf
        (TransformBatchArg.single b1) ct cp cs
      = get_feature_correlation_matrix m adata indices nS bs sf
        TransformBatchArg.noArg ct cp cs
    ∧ get_feature_correlation_matrix m adata indices nS bs sf
        (TransformBatchArg.listArg [b1, b2]) ct cp cs
      = get_feature_correlation_matrix m adata indices nS bs sf
        (TransformBatchArg.listArg [b1', b2']) ct cp cs :=
  ⟨rfl, rfl, rfl⟩

/-- C4 (counterexample): on an untrained model (`is_trained_ = False`),
`get_normalized_expression` and `get_likelihood_parameters` do not raise an
"untrained model" error — they decode and return normal results (neither
reads `is_trained_`; only `get_latent_library_size` and
`get_latent_representation` guard). -/
theorem untrained_queries_do_not_raise :
    untrainedModel.is_trained_ = false
    ∧ (get_normalized_expression untrainedModel testAdata (some [0]) none none
        (LibrarySize.const 1) 1 128 true none).arr = Sum.inl [[3, 3, 3]]
    ∧ get_likelihood_parameters untrainedModel testAdata (some [0]) 128
      = [("mean", [[7, 7, 7]]), ("dispersions", [[2, 2, 2]])] := by
  refine ⟨rfl, ?_, rfl⟩
  rw [gne_arr_one untrainedModel testAdata [0] none none (LibrarySize.const 1)
    128 (by decide) true none]
  simp [gneCellRow, applyMask, geneMaskOpt, gneModelFn, gneScaling,
    untrainedModel, testModel, testAdata, List.range_succ]

/-- C4 (amended): among the cited operations only `get_latent_library_size`
raises the "untrained model" error (`RuntimeError("Please train the model
first.")`) on an untrained model; `get_normalized_expression` and
`get_likelihood_parameters` have no such guard — their results do not depend
on the `is_trained_` flag at all. -/
theorem untrained_guard_only_latent_library (m : VAEModel) (adata : AnnDataLite)
    (indices : Option (List Nat)) (tb : Option Nat) (gl : Option (List String))
    (ls : LibrarySize) (nS bs : Nat) (rm give_mean : Bool) (rn : Option Bool)
    (b : Bool) :
    get_latent_library_size { m with is_trained_ := false } adata indices
        give_mean bs = Except.error "Please train the model first."
    ∧ get_normalized_expression { m with is_trained_ := b } adata indices tb gl
        ls nS bs rm rn
      = get_normalized_expression m adata indices tb gl ls nS bs rm rn
    ∧ get_likelihood_parameters { m with is_trained_ := b } adata indices bs
      = get_likelihood_parameters m adata indices bs :=
  ⟨rfl, rfl, rfl⟩

/-- C9: the minibatch loop shared by every query operation threads the model
state through read-only: it ends in exactly the initial state (no parameter
mutation), and its outputs are a pure function of that initial state and the
requested batches, so repeated queries with the same inputs agree. -/
theorem queries_leave_model_unchanged (σ : Type) (st : σ)
    (infer : σ → Nat → List ℚ) (batches : List (List Nat)) :
    posteriorLoop st infer batches = ((batches.flatten).map (infer st), st) := by
  simpa [posteriorLoop] using posteriorLoop_foldl σ st infer batches []

/-- C10: the dict returned by `get_likelihood_parameters` always has key
`"mean"`; it has `"dropout"` exactly for the `zinb` likelihood and
`"dispersions"` exactly for `zinb` and `nb`; for `poisson` and `normal` it is
just `{"mean": ...}` — the function is total, no likelihood raises. -/
theorem likelihood_parameters_keys (m : VAEModel) (adata : AnnDataLite)
    (indices : Option (List Nat)) (bs : Nat) :
    ((get_likelihood_parameters m adata indices bs).map Prod.fst
        = match m.gene_likelihood with
          | GeneLikelihood.zinb => ["mean", "dropout", "dispersions"]
          | GeneLikelihood.nb => ["mean", "dispersions"]
          | GeneLikelihood.poisson => ["mean"]
          | GeneLikelihood.normal => ["mean"])
    ∧ "mean" ∈ (get_likelihood_parameters m adata indices bs).map Prod.fst
    ∧ ("dropout" ∈ (get_likelihood_parameters m adata indices bs).map Prod.fst
        ↔ m.gene_likelihood = GeneLikelihood.zinb)
    ∧ ("dispersions" ∈ (get_likelihood_parameters m adata indices bs).map Prod.fst
        ↔ (m.gene_likelihood = GeneLikelihood.zinb
            ∨ m.gene_likelihood = GeneLikelihood.nb)) := by
  cases h : m.gene_likelihood <;>
    simp [get_likelihood_parameters, h]

/-- C7: every entry of `_get_denoised_samples` is a Gamma draw at the
parameters of `denoisedGammaParams` applied to
`rate = rna_size_factor * px_scale` and the dispersion — for every cell,
gene and posterior sample — and those parameters satisfy shape = dispersion
and shape/rate = `rate` (a Gamma with shape `k` and rate `β` has mean `k/β`,
so the distribution's mean is `rate`). -/
theorem denoised_gamma_parameterization (m : VAEModel) (adata : AnnDataLite)
    (rows : List Nat) (nS bs : Nat) (sf : ℚ) (tb : Option Nat) (rate disp : ℚ)
    (hbs : 0 < bs) (hS : 0 < nS) (hrate : 0 < rate) (hdisp : 0 < disp) :
    get_denoised_samples m adata (some rows) nS bs sf tb
      = rows.map (fun c => (List.range adata.var_names.length).map (fun g =>
          (List.range nS).map (fun s => denoisedEntry m sf s c g)))
    ∧ (denoisedGammaParams rate disp).1 = disp
    ∧ (denoisedGammaParams rate disp).1 / (denoisedGammaParams rate disp).2
        = rate := by
  refine ⟨denoised_structural m adata rows nS bs sf tb hbs hS, rfl, ?_⟩
  have hr : rate ≠ 0 := ne_of_gt hrate
  have hd : disp ≠ 0 := ne_of_gt hdisp
  have hsum : rate + disp ≠ 0 := by positivity
  have hp : (1 - rate / (rate + disp)) / (rate / (rate + disp)) = disp / rate := by
    field_simp
  simp only [denoisedGammaParams, hp]
  rw [div_div_eq_mul_div, mul_comm, mul_div_assoc, div_self hd, mul_one]

/-- Witness for C7 at a concrete model, row subset and parameter pair. -/
theorem denoised_gamma_parameterization_witness :
    (0 < 1) ∧ ((0:ℚ) < 2) ∧ ((0:ℚ) < 3)
    ∧ (get_denoised_samples testModel testAdata (some [0]) 1 1 1000 none
        = [0].map (fun c => (List.range testAdata.var_names.length).map (fun g =>
            (List.range 1).map (fun s => denoisedEntry testModel 1000 s c g)))
      ∧ (denoisedGammaParams 2 3).1 = 3
      ∧ (denoisedGammaParams 2 3).1 / (denoisedGammaParams 2 3).2 = 2) :=
  ⟨by decide, by norm_num, by norm_num,
    denoised_gamma_parameterization testModel testAdata [0] 1 1 1000 none 2 3
      (by decide) (by decide) (by norm_num) (by norm_num)⟩

/-- C1: for every requested row subset `rows`, each query operation's
concatenated output lists exactly one cell entry per requested row, in the
requested order: the cell axis is literally `rows.map` of the per-cell
decoded value — `get_normalized_expression` (axis 0 at `n_samples = 1`, with
DataFrame row labels `rows.map obs_names`; axis `-2`, i.e. each sample slice,
at `n_samples > 1`), `posterior_predictive_sample` (axis 0, both ranks),
`_get_denoised_samples` (axis 0) and `get_latent_library_size`. -/
theorem query_rows_align_with_requested (m : VAEModel) (adata : AnnDataLite)
    (rows : List Nat) (tb : Option Nat) (gl : Option (List String))
    (ls : LibrarySize) (nS bs : Nat) (give_mean rm : Bool) (rn : Option Bool)
    (sf : ℚ) (hbs : 0 < bs) (hnS : 1 < nS) (ht : m.is_trained_ = true)
    (hlik : m.gene_likelihood
      ∈ [GeneLikelihood.zinb, GeneLikelihood.nb, GeneLikelihood.poisson]) :
    ((get_normalized_expression m adata (some rows) tb gl ls 1 bs rm rn).arr
        = Sum.inl (rows.map (gneCellRow m adata tb gl ls 0))
      ∧ (get_normalized_expression m adata (some rows) tb gl ls 1 bs rm rn).rowNames
        = rows.map adata.obs_names)
    ∧ (get_normalized_expression m adata (some rows) tb gl ls nS bs false rn).arr
        = Sum.inr ((List.range nS).map (fun s =>
            rows.map (gneCellRow m adata tb gl ls s)))
    ∧ posterior_predictive_sample m adata (some rows) 1 gl bs
        = Except.ok (Sum.inl (rows.map (ppsCellRow m adata gl)))
    ∧ posterior_predictive_sample m adata (some rows) nS gl bs
        = Except.ok (Sum.inr (rows.map (ppsCellBlock m adata gl nS)))
    ∧ get_denoised_samples m adata (some rows) nS bs sf tb
        = rows.map (fun c => (List.range adata.var_names.length).map (fun g =>
            (List.range nS).map (fun s => denoisedEntry m sf s c g)))
    ∧ get_latent_library_size m adata (some rows) give_mean bs
        = Except.ok (rows.map (m.sample_from_posterior_l give_mean)) :=
  ⟨⟨gne_arr_one m adata rows tb gl ls bs hbs rm rn,
      gne_rowNames m adata rows tb gl ls 1 bs rm rn⟩,
    gne_arr_many m adata rows tb gl ls nS bs hbs hnS rn,
    pps_ok_one m adata rows gl bs hlik hbs,
    pps_ok_many m adata rows gl nS bs hlik hbs hnS,
    denoised_structural m adata rows nS bs sf tb hbs (by omega),
    glls_ok m adata rows give_mean bs ht hbs⟩

/-- Witness for C1 at a concrete model and the out-of-order row subset
`[2, 0]`. -/
theorem query_rows_align_with_requested_witness :
    (0 < 128) ∧ (1 < 2) ∧ (testModel.is_trained_ = true)
    ∧ (testModel.gene_likelihood
        ∈ [GeneLikelihood.zinb, GeneLikelihood.nb, GeneLikelihood.poisson])
    ∧ (((get_normalized_expression testModel testAdata (some [2, 0]) none none
          LibrarySize.latent 1 128 true none).arr
        = Sum.inl ([2, 0].map (gneCellRow testModel testAdata none none
            LibrarySize.latent 0))
      ∧ (get_normalized_expression testModel testAdata (some [2, 0]) none none
          LibrarySize.latent 1 128 true none).rowNames
        = [2, 0].map testAdata.obs_names)
    ∧ (get_normalized_expression testModel testAdata (some [2, 0]) none none
          LibrarySize.latent 2 128 false none).arr
        = Sum.inr ((List.range 2).map (fun s =>
            [2, 0].map (gneCellRow testModel testAdata none none
              LibrarySize.latent s)))
    ∧ posterior_predictive_sample testModel testAdata (some [2, 0]) 1 none 128
        = Except.ok (Sum.inl ([2, 0].map (ppsCellRow testModel testAdata none)))
    ∧ posterior_predictive_sample testModel testAdata (some [2, 0]) 2 none 128
        = Except.ok (Sum.inr ([2, 0].map (ppsCellBlock testModel testAdata none 2)))
    ∧ get_denoised_samples testModel testAdata (some [2, 0]) 2 128 1000 none
        = [2, 0].map (fun c => (List.range testAdata.var_names.length).map (fun g =>
            (List.range 2).map (fun s => denoisedEntry testModel 1000 s c g)))
    ∧ get_latent_library_size testModel testAdata (some [2, 0]) true 128
        = Except.ok ([2, 0].map (testModel.sample_from_posterior_l true))) :=
  ⟨by decide, by decide, by decide, by decide,
    query_rows_align_with_requested testModel testAdata [2, 0] none none
      LibrarySize.latent 2 128 true true none 1000
      (by decide) (by decide) (by decide) (by decide)⟩

/-- C5 (counterexample): at `n_samples = 1`, `posterior_predictive_sample`
returns a rank-2 `(cells, genes)` array — `dist.sample()` is not permuted and
carries no sample axis — not the rank-3 `(cells, genes, 1)` array the claim
requires for every `n_samples >= 1`. -/
theorem pps_rank_two_at_one_sample :
    exceptRank (posterior_predictive_sample testModel testAdata (some [0, 1])
        1 none 128) = some 2
    ∧ some 2 ≠ some 3 := by
  constructor
  · rfl
  · decide

/-- C5 (amended): `posterior_predictive_sample` has the cell axis first and
one row per selected cell and one column per selected gene in every case; the
sample axis is last and of length `n_samples` when `n_samples > 1`, and absent
(rank-2 output) when `n_samples = 1`. -/
theorem pps_shape_by_sample_count (m : VAEModel) (adata : AnnDataLite)
    (rows : List Nat) (gl : Option (List String)) (nS bs : Nat)
    (hlik : m.gene_likelihood
      ∈ [GeneLikelihood.zinb, GeneLikelihood.nb, GeneLikelihood.poisson])
    (hbs : 0 < bs) :
    (nS = 1 →
      posterior_predictive_sample m adata (some rows) nS gl bs
        = Except.ok (Sum.inl (rows.map (ppsCellRow m adata gl)))
      ∧ (rows.map (ppsCellRow m adata gl)).length = rows.length
      ∧ ∀ r ∈ rows.map (ppsCellRow m adata gl),
          r.length = nSelectedGenes adata.var_names gl)
    ∧ (1 < nS →
      posterior_predictive_sample m adata (some rows) nS gl bs
        = Except.ok (Sum.inr (rows.map (ppsCellBlock m adata gl nS)))
      ∧ (rows.map (ppsCellBlock m adata gl nS)).length = rows.length
      ∧ ∀ cb ∈ rows.map (ppsCellBlock m adata gl nS),
          cb.length = nSelectedGenes adata.var_names gl
          ∧ ∀ gr ∈ cb, gr.length = nS) := by
  constructor
  · intro h1
    subst h1
    refine ⟨pps_ok_one m adata rows gl bs hlik hbs, List.length_map _ _, ?_⟩
    intro r hr
    obtain ⟨c, _, rfl⟩ := List.mem_map.mp hr
    exact length_ppsCellRow m adata gl c
  · intro hnS
    refine ⟨pps_ok_many m adata rows gl nS bs hlik hbs hnS,
      List.length_map _ _, ?_⟩
    intro cb hcb
    obtain ⟨c, _, rfl⟩ := List.mem_map.mp hcb
    exact ⟨length_ppsCellBlock m adata gl nS c,
      fun gr hgr => length_of_mem_ppsCellBlock m adata gl nS c hgr⟩

/-- Witness for C5's amended statement at `n_samples = 2` on a concrete
model. -/
theorem pps_shape_by_sample_count_witness :
    (testModel.gene_likelihood
      ∈ [GeneLikelihood.zinb, GeneLikelihood.nb, GeneLikelihood.poisson])
    ∧ (0 < 128)
    ∧ ((2 = 1 →
        posterior_predictive_sample testModel testAdata (some [0, 1]) 2 none 128
          = Except.ok (Sum.inl ([0, 1].map (ppsCellRow testModel testAdata none)))
        ∧ ([0, 1].map (ppsCellRow testModel testAdata none)).length = [0, 1].length
        ∧ ∀ r ∈ [0, 1].map (ppsCellRow testModel testAdata none),
            r.length = nSelectedGenes testAdata.var_names none)
      ∧ (1 < 2 →
        posterior_predictive_sample testModel testAdata (some [0, 1]) 2 none 128
          = Except.ok (Sum.inr ([0, 1].map (ppsCellBlock testModel testAdata none 2)))
        ∧ ([0, 1].map (ppsCellBlock testModel testAdata none 2)).length = [0, 1].length
        ∧ ∀ cb ∈ [0, 1].map (ppsCellBlock testModel testAdata none 2),
            cb.length = nSelectedGenes testAdata.var_names none
            ∧ ∀ gr ∈ cb, gr.length = 2)) :=
  ⟨by decide, by decide,
    pps_shape_by_sample_count testModel testAdata [0, 1] none 2 128
      (by decide) (by decide)⟩

theorem mem_pps_one_entries (v : Nat) (batches : List (List Nat))
    (gm : Option (List Bool)) (G : Nat) (d : Nat → Nat → Nat) (hv : v ∈ flatCounts
      (Sum.inl ((batches.map (fun mb => mb.map (fun c =>
        applyMask gm ((List.range G).map (fun g => d c g))))).flatten))) :
    ∃ c g, v = d c g := by
  simp only [flatCounts, List.mem_flatten, List.mem_map] at hv
  obtain ⟨row, hrow, hvrow⟩ := hv
  obtain ⟨mbrows, hmbrows, hrowmb⟩ := hrow
  obtain ⟨mb, _, rfl⟩ := hmbrows
  obtain ⟨c, _, rfl⟩ := List.mem_map.mp hrowmb
  have hvin := mem_applyMask hvrow
  obtain ⟨g, _, rfl⟩ := List.mem_map.mp hvin
  exact ⟨c, g, rfl⟩

theorem mem_pps_many_entries (v : Nat) (batches : List (List Nat))
    (gm : Option (List Bool)) (G nS : Nat) (d : Nat → Nat → Nat → Nat)
    (hv : v ∈ flatCounts (Sum.inr ((batches.map (fun mb => mb.map (fun c =>
      applyMask gm ((List.range G).map (fun g =>
        (List.range nS).map (fun s => d s c g)))))).flatten))) :
    ∃ s c g, v = d s c g := by
  simp only [flatCounts, List.mem_flatten, List.mem_map] at hv
  obtain ⟨sl, hsl, hvsl⟩ := hv
  obtain ⟨cb, hcb, rfl⟩ := hsl
  obtain ⟨mbrows, hmbrows, hcbmb⟩ := hcb
  obtain ⟨mb, _, rfl⟩ := hmbrows
  obtain ⟨c, _, rfl⟩ := List.mem_map.mp hcbmb
  rw [List.mem_flatten] at hvsl
  obtain ⟨gr, hgr, hvgr⟩ := hvsl
  have hgr2 := mem_applyMask hgr
  obtain ⟨g, _, rfl⟩ := List.mem_map.mp hgr2
  obtain ⟨s, _, rfl⟩ := List.mem_map.mp hvgr
  exact ⟨s, c, g, rfl⟩

/-- C6: `posterior_predictive_sample` succeeds exactly when the declared
likelihood is one of `zinb`, `nb`, `poisson`; for any other likelihood (in
particular `normal`) it returns the "Invalid gene_likelihood." error for
every input — the guard is the first statement, before any minibatch is
touched, so the error does not depend on the data or the sampler; and on
success every element of the result is an integer draw of the count
distribution, hence a non-negative integer. -/
theorem pps_likelihood_guard (m : VAEModel) (adata : AnnDataLite)
    (indices : Option (List Nat)) (nS : Nat) (gl : Option (List String))
    (bs : Nat) :
    (exceptIsOk (posterior_predictive_sample m adata indices nS gl bs) = true
      ↔ m.gene_likelihood
          ∈ [GeneLikelihood.zinb, GeneLikelihood.nb, GeneLikelihood.poisson])
    ∧ (m.gene_likelihood
        ∉ [GeneLikelihood.zinb, GeneLikelihood.nb, GeneLikelihood.poisson] →
      posterior_predictive_sample m adata indices nS gl bs
        = Except.error "Invalid gene_likelihood.")
    ∧ (∀ res, posterior_predictive_sample m adata indices nS gl bs
          = Except.ok res →
      ∀ v ∈ flatCounts res,
        (∃ s c g, v = m.dist_sample m.gene_likelihood s c g)
          ∧ 0 ≤ (v : ℤ)) := by
  refine ⟨?_, ?_, ?_⟩
  · by_cases hlik : m.gene_likelihood
        ∈ [GeneLikelihood.zinb, GeneLikelihood.nb, GeneLikelihood.poisson]
    · by_cases hnS : nS > 1 <;>
        simp [posterior_predictive_sample, hlik, hnS, exceptIsOk]
    · simp [posterior_predictive_sample, hlik, exceptIsOk]
  · intro h
    simp only [posterior_predictive_sample]
    rw [if_pos h]
  · intro res hres v hv
    by_cases hlik : m.gene_likelihood
        ∈ [GeneLikelihood.zinb, GeneLikelihood.nb, GeneLikelihood.poisson]
    · refine ⟨?_, Int.natCast_nonneg v⟩
      by_cases hnS : nS > 1
      · have hS : 0 < nS := by omega
        have hperm : ∀ mb : List Nat,
            permute120 ((List.range nS).map (fun s => mb.map (fun c =>
              (List.range adata.var_names.length).map (fun g =>
                m.dist_sample m.gene_likelihood s c g)))) 0
            = mb.map (fun c => (List.range adata.var_names.length).map (fun g =>
                (List.range nS).map (fun s =>
                  m.dist_sample m.gene_likelihood s c g))) :=
          fun mb => permute120_comp _ nS adata.var_names.length hS mb 0
        simp only [posterior_predictive_sample] at hres
        rw [if_neg (not_not_intro hlik), if_pos hnS] at hres
        simp only [hperm, List.map_map] at hres
        have hres2 := (Except.ok.inj hres).symm
        subst hres2
        exact mem_pps_many_entries v
          (chunks bs (resolveIndices adata.n_obs indices))
          (geneMaskOpt adata.var_names gl) adata.var_names.length nS
          (m.dist_sample m.gene_likelihood)
          (by simpa [Function.comp] using hv)
      · simp only [posterior_predictive_sample] at hres
        rw [if_neg (not_not_intro hlik), if_neg hnS] at hres
        have hres2 := (Except.ok.inj hres).symm
        subst hres2
        have h0 := mem_pps_one_entries v
          (chunks bs (resolveIndices adata.n_obs indices))
          (geneMaskOpt adata.var_names gl) adata.var_names.length
          (fun c g => m.dist_sample m.gene_likelihood 0 c g)
          (by simpa using hv)
        obtain ⟨c, g, rfl⟩ := h0
        exact ⟨0, c, g, rfl⟩
    · exfalso
      simp only [posterior_predictive_sample] at hres
      rw [if_pos hlik] at hres
      exact Except.noConfusion hres

/-- C8: the `differential_expression` table is sorted descending by the
mode's primary statistic (`proba_de` for `"change"`, `bayes_factor` for every
other mode — that is what `sortKey` selects), has exactly one row per gene
(it is a permutation of the gene-indexed table), and when `all_stats=True`
every row carries, per group, the mean raw count, the non-zero proportion and
the library-size-normalized mean computed from the raw count matrix
restricted to that group's cell indices. -/
theorem de_table_sorted_with_raw_stats (adata : AnnDataLite) (bf pde : Nat → ℚ)
    (g1 : String) (g2 : Option String) (mode : String) (all_stats : Bool) :
    List.Sorted (fun a b => sortKey mode b ≤ sortKey mode a)
      (differential_expression adata bf pde g1 g2 mode all_stats)
    ∧ (differential_expression adata bf pde g1 g2 mode all_stats).length
        = adata.var_names.length
    ∧ (differential_expression adata bf pde g1 g2 mode all_stats).Perm
        (deRows adata bf pde g1 g2 all_stats)
    ∧ ∀ row ∈ differential_expression adata bf pde g1 g2 mode all_stats,
        ∃ g, g < adata.var_names.length
          ∧ row.gene = adata.var_names.getD g ""
          ∧ row.bayes_factor = bf g
          ∧ row.proba_de = pde g
          ∧ row.raw_mean1 = (if all_stats then
              some (rawMean adata.X (maskIndices (deCellIdx1 adata g1)) g) else none)
          ∧ row.raw_mean2 = (if all_stats then
              some (rawMean adata.X (maskIndices (deCellIdx2 adata g1 g2)) g) else none)
          ∧ row.non_zeros_proportion1 = (if all_stats then
              some (nonZerosProportion adata.X (maskIndices (deCellIdx1 adata g1)) g)
              else none)
          ∧ row.non_zeros_proportion2 = (if all_stats then
              some (nonZerosProportion adata.X (maskIndices (deCellIdx2 adata g1 g2)) g)
              else none)
          ∧ row.raw_normalized_mean1 = (if all_stats then
              some (rawNormalizedMean adata.X adata.var_names.length
                (maskIndices (deCellIdx1 adata g1)) g) else none)
          ∧ row.raw_normalized_mean2 = (if all_stats then
              some (rawNormalizedMean adata.X adata.var_names.length
                (maskIndices (deCellIdx2 adata g1 g2)) g) else none) := by
  have hperm : (differential_expression adata bf pde g1 g2 mode all_stats).Perm
      (deRows adata bf pde g1 g2 all_stats) :=
    List.perm_insertionSort _ _
  refine ⟨?_, ?_, hperm, ?_⟩
  · haveI ht : IsTotal DERow (fun a b => sortKey mode b ≤ sortKey mode a) :=
      ⟨fun a b => le_total (sortKey mode b) (sortKey mode a)⟩
    haveI htr : IsTrans DERow (fun a b => sortKey mode b ≤ sortKey mode a) :=
      ⟨fun a b c h1 h2 => le_trans h2 h1⟩
    exact List.sorted_insertionSort _ _
  · rw [hperm.length_eq]
    simp [deRows]
  · intro row hrow
    have hmem : row ∈ deRows adata bf pde g1 g2 all_stats := hperm.mem_iff.mp hrow
    simp only [deRows, List.mem_map, List.mem_range] at hmem
    obtain ⟨g, hg, rfl⟩ := hmem
    exact ⟨g, hg, rfl, rfl, rfl, rfl, rfl, rfl, rfl, rfl, rfl⟩

end Scvi
